import Mathlib

/-!
Shallow embedding of the repair-orchestration pipeline from
`backend/app/services/reasoning_brain.py` (class `RepairBrain`), together
with the response schema of `backend/app/models/schemas.py` and the
collaborator contracts of `ifixit_client.py` / `trellis_service.py`.

The external collaborators (the generative model, the iFixit HTTP client
and the Trellis asset pipeline) are modelled by an oracle record `Collab`:
each field is the outcome of the corresponding call in one session, with
`Except.error e` meaning the Python call raised an exception whose
rendered message is `e` (the node-level `try/except` blocks appear as the
`match`es on these fields).  The image bytes influence the pipeline only
through collaborator calls, so they are absorbed into the oracle.
Post-parse JSON payloads are modelled with the fields the code reads,
`Option`-valued where the Python code uses `.get` with a default.
-/

/-- Python `state.get(k) or default` on an optional string: `None` and the
empty string both select the default. -/
def pyOrStr (o : Option String) (d : String) : String :=
  match o with
  | none => d
  | some s => if s = "" then d else s

/-- Python `a or b` on two strings (used for `instruction_text or s.get('title', 'Step')`). -/
def pyOrS (a b : String) : String :=
  if a = "" then b else a

/-- Python f-string rendering of an `Optional[str]`: `None` prints as `"None"`. -/
def pyShowOpt (o : Option String) : String :=
  match o with
  | none => "None"
  | some s => s

/-- Python `repr` of a list of strings, as an f-string interpolates it
(`f"Scene Analysis: Saw {objects}."`). -/
def pyReprList (xs : List String) : String :=
  "[" ++ String.intercalate ", " (xs.map fun s => "'" ++ s ++ "'") ++ "]"

/-- Python truthiness of an `Optional[int]` (`if guide_id:`): `None` and `0` are falsy. -/
def pyTruthyInt (o : Option Int) : Bool :=
  match o with
  | none => false
  | some n => n != 0

/-- Occurrence of `needle` as a contiguous run inside a character list. -/
def hasSub (needle : List Char) : List Char → Bool
  | [] => needle.isEmpty
  | c :: rest => needle.isPrefixOf (c :: rest) || hasSub needle rest

/-- Python `needle in hay` on strings (`if "Unknown" in target:`). -/
def pyStrIn (needle hay : String) : Bool :=
  hasSub needle.data hay.data

/-- Pipeline-internal step dict (`{"step": ..., "instruction": ..., "warning": ...}`);
fields are optional because the dicts coming back from model JSON need not
carry every key. -/
structure StepDict where
  step : Option Int
  instruction : Option String
  warning : Option String
deriving DecidableEq

/-- Device record returned by `iFixitClient.search_device` (the fields the
orchestrator reads). -/
structure Device where
  title : Option String
  display_title : Option String
deriving DecidableEq

/-- Guide summary from `iFixitClient.get_guides` (the orchestrator reads
only `guideid` of the first one). -/
structure Guide where
  guideid : Option Int
deriving DecidableEq

/-- One line of a raw iFixit guide step; `l.get('text_raw', '')`. -/
structure GuideLine where
  text_raw : Option String
deriving DecidableEq

/-- One raw step of an iFixit guide detail: `s.get('lines', [])` and
`s.get('title', 'Step')`. -/
structure RawStep where
  lines : List GuideLine
  title : Option String
deriving DecidableEq

/-- Guide detail from `iFixitClient.get_guide_details`: `details.get('steps', [])`
(the non-200 fallback `{}` is the value with `steps = []`). -/
structure GuideDetail where
  steps : List RawStep
deriving DecidableEq

/-- Parsed JSON of the scene-analysis model call in `analyze_scene_node`. -/
structure SceneData where
  target_object : Option String
  reasoning : Option String
  detected_objects : List String
deriving DecidableEq

/-- Parsed JSON of the generative model call in `generative_reasoning_node`. -/
structure GenData where
  steps : List StepDict
  safety_warnings : List String
deriving DecidableEq

instance instDecEqExcept {ε α : Type} [DecidableEq ε] [DecidableEq α] :
    DecidableEq (Except ε α) := fun a b =>
  match a, b with
  | .error e, .error f =>
      if h : e = f then .isTrue (congrArg Except.error h)
      else .isFalse fun hh => h (Except.error.inj hh)
  | .ok x, .ok y =>
      if h : x = y then .isTrue (congrArg Except.ok h)
      else .isFalse fun hh => h (Except.ok.inj hh)
  | .error _, .ok _ => .isFalse fun hh => Except.noConfusion hh
  | .ok _, .error _ => .isFalse fun hh => Except.noConfusion hh

/-- Oracle for one session: the outcome of every external call the
pipeline can make.  `modelAvailable` is `self.model is not None`;
`trellisUrl` is the outcome of the `generate_exploded_model_url` task
(`None` on any internal failure, per its catch-all contract). -/
structure Collab where
  modelAvailable : Bool
  sceneResp : Except String SceneData
  searchResp : Except String (Option Device)
  guidesResp : Except String (List Guide)
  detailResp : Except String GuideDetail
  genResp : Except String GenData
  polishResp : Except String (List StepDict)
  trellisUrl : Option String
deriving DecidableEq

/-- Mirror of `RepairResponse` in `backend/app/models/schemas.py`:
the shape of the dict returned by `process_request`. -/
structure RepairResponse where
  source : String
  device : String
  steps : List StepDict
  safety : List String
  guides_available : Option (List Guide)
  reasoning_log : List String
  model_url : Option String
deriving DecidableEq

/-- Partial state update returned by `analyze_scene_node`. -/
structure SceneUpdate where
  target_device : String
  detected_objects : List String
deriving DecidableEq

/-- Partial state update returned by `ifixit_check_node`: either
`{"is_verified": False}` or the full verified record. -/
inductive IfxUpdate where
  | notVerified
  | verified (repair_steps : List StepDict) (guides_available : List Guide)
deriving DecidableEq

/-- Partial state update returned by `generative_reasoning_node`. -/
structure GenUpdate where
  repair_steps : List StepDict
  safety_warnings : List String
deriving DecidableEq

/-- Step 1 of the pipeline (`RepairBrain.analyze_scene_node`): returns the
log lines it appends, in order, plus its state update. -/
def analyze_scene_node (c : Collab) (user_prompt : Option String) :
    List String × SceneUpdate :=
  if !c.modelAvailable then
    (["AI offline. Defaulting to Unknown Device."],
     { target_device := "Unknown Device (AI Offline)", detected_objects := [] })
  else
    let l1 := "Analyzing scene. User Context: '" ++
      pyOrStr user_prompt "No specific context provided." ++ "'"
    match c.sceneResp with
    | .error e =>
        ([l1, "Scene Analysis Failed: " ++ e],
         { target_device := "Unknown Device", detected_objects := [] })
    | .ok d =>
        let target := d.target_object.getD "Unknown Object"
        let reasoning := d.reasoning.getD "Selected most prominent object."
        ([l1,
          "Scene Analysis: Saw " ++ pyReprList d.detected_objects ++ ".",
          "Target Lock: Selected '" ++ target ++ "'. Reason: " ++ reasoning],
         { target_device := target, detected_objects := d.detected_objects })

/-- Mapping of one raw iFixit step (0-based index `idx`) into the pipeline
step dict, as done inside `ifixit_check_node`. -/
def mapRawStep (idx : Nat) (s : RawStep) : StepDict :=
  let instruction_text :=
    String.intercalate " " (s.lines.map fun l => l.text_raw.getD "")
  { step := some (Int.ofNat idx + 1),
    instruction := some (pyOrS instruction_text (s.title.getD "Step")),
    warning := none }

/-- The `verified_steps` list built by `ifixit_check_node` from a guide detail. -/
def mapVerifiedSteps (raws : List RawStep) : List StepDict :=
  raws.enum.map fun p => mapRawStep p.1 p.2

/-- Step 2 of the pipeline (`RepairBrain.ifixit_check_node`): log lines plus
state update.  Each `.error` arm is the node-level `except` clause firing. -/
def ifixit_check_node (c : Collab) (target : String) :
    List String × IfxUpdate :=
  if pyStrIn "Unknown" target then ([], .notVerified)
  else
    let l1 := "Searching iFixit for '" ++ target ++ "'..."
    match c.searchResp with
    | .error e => ([l1, "iFixit Check Failed: " ++ e], .notVerified)
    | .ok none => ([l1, "No exact verified guide found on iFixit."], .notVerified)
    | .ok (some dev) =>
        let l2 := "iFixit match found: " ++ pyShowOpt dev.display_title
        match c.guidesResp with
        | .error e => ([l1, l2, "iFixit Check Failed: " ++ e], .notVerified)
        | .ok [] => ([l1, l2, "No exact verified guide found on iFixit."], .notVerified)
        | .ok (g :: gs) =>
            let l3 := "Found " ++ toString (g :: gs).length ++ " verified guides."
            if pyTruthyInt g.guideid then
              match c.detailResp with
              | .error e => ([l1, l2, l3, "iFixit Check Failed: " ++ e], .notVerified)
              | .ok details =>
                  ([l1, l2, l3], .verified (mapVerifiedSteps details.steps) (g :: gs))
            else
              ([l1, l2, l3], .verified [] (g :: gs))

/-- The canned fallback of `RepairBrain._mock_generative_steps`. -/
def mock_generative_steps : GenUpdate :=
  { repair_steps := [
      { step := some 1,
        instruction := some "Remove the 4 visible Phillips screws on the back panel.",
        warning := none },
      { step := some 2,
        instruction := some "Gently pry the seam using a plastic pick.",
        warning := some "Clips may break if forced." }],
    safety_warnings := ["Unplug device before opening", "Capacitor discharge risk"] }

/-- Step 3, Path B (`RepairBrain.generative_reasoning_node`): log lines plus
state update. -/
def generative_reasoning_node (c : Collab) (target : String) :
    List String × GenUpdate :=
  if !c.modelAvailable then ([], mock_generative_steps)
  else
    let l1 := "Engaging Generative Repair Logic for '" ++ target ++ "'..."
    match c.genResp with
    | .error e => ([l1, "Gemini Reasoning Failed: " ++ e], mock_generative_steps)
    | .ok d =>
        ([l1, "Generated " ++ toString d.steps.length ++ " repair steps via Visual Analysis."],
         { repair_steps := d.steps, safety_warnings := d.safety_warnings })

/-- Batch polish (`RepairBrain.polish_all_steps`): best-effort rewrite that
keeps the original list on any guard or failure. -/
def polish_all_steps (c : Collab) (steps : List StepDict) : List StepDict :=
  if !c.modelAvailable || steps.isEmpty then steps
  else if steps.length > 30 then steps
  else
    match c.polishResp with
    | .error _ => steps
    | .ok polished => if polished.length != steps.length then steps else polished

/-- Output of one blocking orchestration call: the returned response dict
plus the final session state fields the properties talk about, and whether
the generative node was invoked. -/
structure ProcOut where
  resp : RepairResponse
  is_verified : Bool
  guides_available : List Guide
  genInvoked : Bool
deriving DecidableEq

/-- Blocking orchestrator (`RepairBrain.process_request`).  The Trellis task
is launched right after scene analysis and joined just before returning;
its outcome is `c.trellisUrl`. -/
def process_request (c : Collab) (user_prompt : Option String) : ProcOut :=
  let scene := analyze_scene_node c user_prompt
  let target := scene.2.target_device
  let ifx := ifixit_check_node c target
  let baseLog := ["Starting Repair Analysis Session."] ++ scene.1 ++ ifx.1
  match ifx.2 with
  | .verified vsteps guides =>
      let polished := polish_all_steps c vsteps
      { resp := {
          source := "iFixit",
          device := target,
          steps := polished,
          safety := ["Follow official guide strictly."],
          guides_available := some guides,
          reasoning_log := baseLog ++
            ["Path A Selected: Using Official Guide.",
             "Polishing steps for clarity and user-friendliness...",
             "Successfully polished " ++ toString polished.length ++ " steps."],
          model_url := c.trellisUrl },
        is_verified := true,
        guides_available := guides,
        genInvoked := false }
  | .notVerified =>
      let gen := generative_reasoning_node c target
      let polished := polish_all_steps c gen.2.repair_steps
      { resp := {
          source := "AI_Reasoning",
          device := target,
          steps := polished,
          safety := gen.2.safety_warnings,
          guides_available := none,
          reasoning_log := baseLog ++
            ["Path B Selected: Generative AI Mode.",
             "Engaging Generative Repair Logic while 3D model renders..."] ++ gen.1 ++
            ["Polishing steps for clarity and user-friendliness...",
             "Successfully polished " ++ toString polished.length ++ " steps."],
          model_url := c.trellisUrl },
        is_verified := false,
        guides_available := [],
        genInvoked := true }

/-- Event yielded by the streaming orchestrator. -/
inductive StreamEvent where
  | log (data : String)
  | result (data : RepairResponse)
deriving DecidableEq

/-- Streaming orchestrator (`RepairBrain.process_request_streaming`),
modelled as the list of events it yields, in order.  `stream_log` both
yields a `log` event and appends to the session reasoning-log, while the
nodes' internal `_log` lines are appended to the state but not yielded. -/
def process_request_streaming (c : Collab) (user_prompt : Option String) :
    List StreamEvent :=
  let m1 := "Starting Repair Analysis Session."
  let m2 := "Analyzing scene. User Context: '" ++ pyOrStr user_prompt "No context" ++ "'"
  let scene := analyze_scene_node c user_prompt
  let target := scene.2.target_device
  let tl := if target = "" then [] else ["Target Lock: " ++ target]
  let m4 := "Launching exploded 3D model generation in parallel..."
  let m5 := "Searching iFixit for '" ++ target ++ "'..."
  let ifx := ifixit_check_node c target
  let stateLog := [m1, m2] ++ scene.1 ++ tl ++ [m4, m5] ++ ifx.1
  match ifx.2 with
  | .verified vsteps guides =>
      let m6 := "Path A Selected: Using Official Guide."
      let m7 := "Found " ++ toString guides.length ++ " verified guides."
      let m8 := "Polishing steps for clarity..."
      let polished := polish_all_steps c vsteps
      let m9 := "Successfully polished " ++ toString polished.length ++ " steps."
      ([m1, m2] ++ tl ++ [m4, m5, m6, m7, m8, m9]).map StreamEvent.log ++
        [StreamEvent.result {
          source := "iFixit",
          device := target,
          steps := polished,
          safety := ["Follow official guide strictly."],
          guides_available := some guides,
          reasoning_log := stateLog ++ [m6, m7, m8, m9],
          model_url := c.trellisUrl }]
  | .notVerified =>
      let p1 := "Path B Selected: Generative AI Mode."
      let p2 := "Engaging AI reasoning..."
      let p3 := "Generating repair steps while 3D exploded model renders..."
      let gen := generative_reasoning_node c target
      let p4 := "Generated " ++ toString gen.2.repair_steps.length ++ " repair steps."
      let p5 := "Polishing steps for clarity..."
      let polished := polish_all_steps c gen.2.repair_steps
      let p6 := "Successfully polished " ++ toString polished.length ++ " steps."
      ([m1, m2] ++ tl ++ [m4, m5, p1, p2, p3, p4, p5, p6]).map StreamEvent.log ++
        [StreamEvent.result {
          source := "AI_Reasoning",
          device := target,
          steps := polished,
          safety := gen.2.safety_warnings,
          guides_available := none,
          reasoning_log := stateLog ++ [p1, p2, p3] ++ gen.1 ++ [p4, p5, p6],
          model_url := c.trellisUrl }]

/-!
Properties.  Each claim gets one main theorem; concrete oracles used by a
claim's counterexample or witness are private to that claim.
-/

/-- A step dict that validates against the `RepairStep` pydantic schema:
`step` and `instruction` are present. -/
def wellFormedStep (s : StepDict) : Prop :=
  s.step.isSome = true ∧ s.instruction.isSome = true

/-- Collaborator contract of §4.4 of the spec: JSON payloads that parse
successfully carry schema-shaped steps. -/
def okPayloadsWellFormed (c : Collab) : Prop :=
  (∀ gd, c.genResp = .ok gd → ∀ s ∈ gd.steps, wellFormedStep s) ∧
  (∀ ps, c.polishResp = .ok ps → ∀ s ∈ ps, wellFormedStep s)

/-- Structural validity of a response against the `RepairResponse` schema:
a recognized source tag and schema-shaped steps (the remaining fields are
present by construction of the record). -/
def structurallyValid (r : RepairResponse) : Prop :=
  (r.source = "iFixit" ∨ r.source = "AI_Reasoning") ∧
  ∀ s ∈ r.steps, wellFormedStep s

theorem mapVerifiedSteps_wellFormed (raws : List RawStep) :
    ∀ s ∈ mapVerifiedSteps raws, wellFormedStep s := by
  intro s hs
  simp only [mapVerifiedSteps, List.mem_map] at hs
  obtain ⟨p, -, rfl⟩ := hs
  exact ⟨rfl, rfl⟩

theorem polish_all_steps_wellFormed (c : Collab) (steps : List StepDict)
    (hin : ∀ s ∈ steps, wellFormedStep s)
    (hok : ∀ ps, c.polishResp = .ok ps → ∀ s ∈ ps, wellFormedStep s) :
    ∀ s ∈ polish_all_steps c steps, wellFormedStep s := by
  unfold polish_all_steps
  by_cases h1 : (!c.modelAvailable || steps.isEmpty) = true
  · simp only [h1, if_true]; exact hin
  · simp only [h1, if_false]
    by_cases h2 : steps.length > 30
    · simp only [if_pos h2]; exact hin
    · simp only [if_neg h2]
      cases hp : c.polishResp with
      | error e => exact hin
      | ok ps =>
          by_cases hlen : (ps.length != steps.length) = true
          · simp only [hlen, if_true]; exact hin
          · simp only [hlen, if_false]; exact hok ps hp

theorem ifixit_check_node_verified_shape (c : Collab) (target : String)
    (vs : List StepDict) (gs : List Guide)
    (h : (ifixit_check_node c target).2 = .verified vs gs) :
    (vs = [] ∨ ∃ d, c.detailResp = .ok d ∧ vs = mapVerifiedSteps d.steps) ∧ gs ≠ [] := by
  unfold ifixit_check_node at h
  split at h
  · simp at h
  · cases hs : c.searchResp with
    | error e => rw [hs] at h; simp at h
    | ok od =>
        rw [hs] at h
        cases od with
        | none => simp at h
        | some dev =>
            simp only at h
            cases hg : c.guidesResp with
            | error e => rw [hg] at h; simp at h
            | ok gl =>
                rw [hg] at h
                cases gl with
                | nil => simp at h
                | cons g rest =>
                    simp only at h
                    split at h
                    · cases hd : c.detailResp with
                      | error e => rw [hd] at h; simp at h
                      | ok det =>
                          rw [hd] at h
                          simp only [IfxUpdate.verified.injEq] at h
                          refine ⟨Or.inr ⟨det, rfl, h.1.symm⟩, ?_⟩
                          rw [← h.2]; simp
                    · simp only [IfxUpdate.verified.injEq] at h
                      refine ⟨Or.inl h.1.symm, ?_⟩
                      rw [← h.2]; simp

theorem generative_reasoning_node_wellFormed (c : Collab) (target : String)
    (hok : ∀ gd, c.genResp = .ok gd → ∀ s ∈ gd.steps, wellFormedStep s) :
    ∀ s ∈ (generative_reasoning_node c target).2.repair_steps, wellFormedStep s := by
  unfold generative_reasoning_node
  split
  · intro s hs
    simp only [mock_generative_steps, List.mem_cons, List.mem_singleton] at hs
    rcases hs with rfl | rfl | h
    · exact ⟨rfl, rfl⟩
    · exact ⟨rfl, rfl⟩
    · simp at h
  · cases hg : c.genResp with
    | error e =>
        intro s hs
        simp only [mock_generative_steps, List.mem_cons, List.mem_singleton] at hs
        rcases hs with rfl | rfl | h
        · exact ⟨rfl, rfl⟩
        · exact ⟨rfl, rfl⟩
        · simp at h
    | ok gd => exact hok gd hg

/-- C1: for every image/hint and every collaborator behavior whose
successfully-parsed payloads are schema-shaped (expected failure modes —
model unavailable, guide lookup empty or failing, unparseable collaborator
JSON — are arbitrary `error`/empty outcomes here), `process_request`
returns normally (it is a total function of the oracle) and the returned
record is structurally valid: a recognized source tag, device name, step
list, safety list, reasoning-log and optional asset URL. -/
theorem c1_process_request_structurally_valid (c : Collab) (up : Option String)
    (h : okPayloadsWellFormed c) :
    structurallyValid (process_request c up).resp := by
  simp only [process_request]
  cases hI : (ifixit_check_node c (analyze_scene_node c up).2.target_device).2 with
  | verified vs gs =>
      refine ⟨Or.inl rfl, ?_⟩
      have hshape := (ifixit_check_node_verified_shape c _ vs gs hI).1
      refine polish_all_steps_wellFormed c vs ?_ h.2
      rcases hshape with rfl | ⟨d, -, rfl⟩
      · intro s hs; simp at hs
      · exact mapVerifiedSteps_wellFormed d.steps
  | notVerified =>
      refine ⟨Or.inr rfl, ?_⟩
      exact polish_all_steps_wellFormed c _
        (generative_reasoning_node_wellFormed c _ h.1) h.2

/-- C1 witness: a concrete offline-collaborator oracle satisfies the
hypothesis and yields a structurally valid response. -/
theorem c1_witness :
    okPayloadsWellFormed
      ⟨false, .error "e", .error "e", .error "e", .error "e", .error "e", .error "e", none⟩ ∧
    structurallyValid (process_request
      ⟨false, .error "e", .error "e", .error "e", .error "e", .error "e", .error "e", none⟩
      none).resp := by
  have h : okPayloadsWellFormed
      ⟨false, .error "e", .error "e", .error "e", .error "e", .error "e", .error "e", none⟩ :=
    And.intro (fun gd hgd => nomatch hgd) (fun ps hps => nomatch hps)
  exact And.intro h (c1_process_request_structurally_valid _ none h)

/-- C5: the polisher returns its input unchanged when the model is
unavailable, when more than 30 steps are given, or when the model's list
has a different length; consequently polishing always preserves the step
count. -/
theorem c5_polish_preserves_count (c : Collab) (steps : List StepDict) :
    (c.modelAvailable = false → polish_all_steps c steps = steps) ∧
    (30 < steps.length → polish_all_steps c steps = steps) ∧
    (∀ ps, c.polishResp = .ok ps → ps.length ≠ steps.length →
        polish_all_steps c steps = steps) ∧
    (polish_all_steps c steps).length = steps.length := by
  refine ⟨?_, ?_, ?_, ?_⟩
  · intro h; simp [polish_all_steps, h]
  · intro h
    by_cases h1 : (!c.modelAvailable || steps.isEmpty) = true
    · simp [polish_all_steps, h1]
    · simp [polish_all_steps, h1, h]
  · intro ps hps hlen
    by_cases h1 : (!c.modelAvailable || steps.isEmpty) = true
    · simp [polish_all_steps, h1]
    · by_cases h2 : steps.length > 30
      · simp [polish_all_steps, h1, h2]
      · simp [polish_all_steps, h1, h2, hps, hlen]
  · by_cases h1 : (!c.modelAvailable || steps.isEmpty) = true
    · simp [polish_all_steps, h1]
    · by_cases h2 : steps.length > 30
      · simp [polish_all_steps, h1, h2]
      · cases hp : c.polishResp with
        | error e => simp [polish_all_steps, h1, h2, hp]
        | ok ps =>
            by_cases h3 : (ps.length != steps.length) = true
            · simp [polish_all_steps, h1, h2, hp, h3]
            · have hlen : ps.length = steps.length := by simpa using h3
              simp [polish_all_steps, h1, h2, hp, h3, hlen]

/-- C5 witness: the polisher applied with an unavailable model returns the
input unchanged and preserves its length. -/
theorem c5_witness :
    polish_all_steps
      ⟨false, .error "e", .error "e", .error "e", .error "e", .error "e", .error "e", none⟩
      [] = [] ∧
    (polish_all_steps
      ⟨false, .error "e", .error "e", .error "e", .error "e", .error "e", .error "e", none⟩
      []).length = ([] : List StepDict).length :=
  ⟨(c5_polish_preserves_count _ _).1 rfl, (c5_polish_preserves_count _ _).2.2.2⟩

/-- C6: in the final session state and result, `is_verified` is true
exactly when the final `guides_available` list is non-empty and the
result's source tag is the verified tag `"iFixit"`. -/
theorem c6_is_verified_iff (c : Collab) (up : Option String) :
    (process_request c up).is_verified = true ↔
      ((process_request c up).guides_available ≠ [] ∧
       (process_request c up).resp.source = "iFixit") := by
  simp only [process_request]
  cases hI : (ifixit_check_node c (analyze_scene_node c up).2.target_device).2 with
  | verified vs gs =>
      have hne := (ifixit_check_node_verified_shape c _ vs gs hI).2
      simp [hne]
  | notVerified => simp

theorem analyze_scene_node_trellis_free (c : Collab) (u : Option String)
    (up : Option String) :
    analyze_scene_node { c with trellisUrl := u } up = analyze_scene_node c up := rfl

theorem ifixit_check_node_trellis_free (c : Collab) (u : Option String)
    (target : String) :
    ifixit_check_node { c with trellisUrl := u } target = ifixit_check_node c target := rfl

theorem generative_reasoning_node_trellis_free (c : Collab) (u : Option String)
    (target : String) :
    generative_reasoning_node { c with trellisUrl := u } target
      = generative_reasoning_node c target := rfl

theorem polish_all_steps_trellis_free (c : Collab) (u : Option String)
    (steps : List StepDict) :
    polish_all_steps { c with trellisUrl := u } steps = polish_all_steps c steps := rfl

/-- C7: two runs differing only in the asset-generation task's outcome
agree on steps, source, safety, device, guides_available and
reasoning_log; only `model_url` (which equals the task outcome) differs. -/
theorem c7_asset_outcome_only_changes_model_url (c : Collab)
    (up : Option String) (u₁ u₂ : Option String) :
    (process_request { c with trellisUrl := u₁ } up).resp.steps
      = (process_request { c with trellisUrl := u₂ } up).resp.steps ∧
    (process_request { c with trellisUrl := u₁ } up).resp.source
      = (process_request { c with trellisUrl := u₂ } up).resp.source ∧
    (process_request { c with trellisUrl := u₁ } up).resp.safety
      = (process_request { c with trellisUrl := u₂ } up).resp.safety ∧
    (process_request { c with trellisUrl := u₁ } up).resp.device
      = (process_request { c with trellisUrl := u₂ } up).resp.device ∧
    (process_request { c with trellisUrl := u₁ } up).resp.guides_available
      = (process_request { c with trellisUrl := u₂ } up).resp.guides_available ∧
    (process_request { c with trellisUrl := u₁ } up).resp.reasoning_log
      = (process_request { c with trellisUrl := u₂ } up).resp.reasoning_log ∧
    (process_request { c with trellisUrl := u₁ } up).resp.model_url = u₁ ∧
    (process_request { c with trellisUrl := u₂ } up).resp.model_url = u₂ := by
  simp only [process_request, analyze_scene_node_trellis_free,
    ifixit_check_node_trellis_free, generative_reasoning_node_trellis_free,
    polish_all_steps_trellis_free]
  cases hI : (ifixit_check_node c (analyze_scene_node c up).2.target_device).2 <;> simp

/-- C8: when the target-lock collaborator (the generative model) is
unavailable, the locked target is the offline sentinel, the session is
not verified, the source tag is the generated one, and the two canned
fallback steps and safety warnings appear verbatim. -/
theorem c8_target_lock_unavailable_canned (c : Collab) (up : Option String)
    (h : c.modelAvailable = false) :
    (process_request c up).resp.device = "Unknown Device (AI Offline)" ∧
    (process_request c up).is_verified = false ∧
    (process_request c up).resp.source = "AI_Reasoning" ∧
    (process_request c up).resp.steps = [
      { step := some 1,
        instruction := some "Remove the 4 visible Phillips screws on the back panel.",
        warning := none },
      { step := some 2,
        instruction := some "Gently pry the seam using a plastic pick.",
        warning := some "Clips may break if forced." }] ∧
    (process_request c up).resp.safety =
      ["Unplug device before opening", "Capacitor discharge risk"] := by
  have hscene : analyze_scene_node c up =
      (["AI offline. Defaulting to Unknown Device."],
       { target_device := "Unknown Device (AI Offline)", detected_objects := [] }) := by
    simp [analyze_scene_node, h]
  have hifx : ifixit_check_node c "Unknown Device (AI Offline)" = ([], .notVerified) := rfl
  have hgen : generative_reasoning_node c "Unknown Device (AI Offline)"
      = ([], mock_generative_steps) := by
    simp [generative_reasoning_node, h]
  have hpolish : polish_all_steps c [
      { step := some 1,
        instruction := some "Remove the 4 visible Phillips screws on the back panel.",
        warning := none },
      { step := some 2,
        instruction := some "Gently pry the seam using a plastic pick.",
        warning := some "Clips may break if forced." }] = [
      { step := some 1,
        instruction := some "Remove the 4 visible Phillips screws on the back panel.",
        warning := none },
      { step := some 2,
        instruction := some "Gently pry the seam using a plastic pick.",
        warning := some "Clips may break if forced." }] := by
    simp [polish_all_steps, h]
  simp [process_request, hscene, hifx, hgen, mock_generative_steps, hpolish]

/-- C8 witness: concrete offline oracle. -/
theorem c8_witness :
    (process_request
      ⟨false, .error "e", .error "e", .error "e", .error "e", .error "e", .error "e", none⟩
      none).resp.source = "AI_Reasoning" ∧
    (process_request
      ⟨false, .error "e", .error "e", .error "e", .error "e", .error "e", .error "e", none⟩
      none).resp.steps = [
      { step := some 1,
        instruction := some "Remove the 4 visible Phillips screws on the back panel.",
        warning := none },
      { step := some 2,
        instruction := some "Gently pry the seam using a plastic pick.",
        warning := some "Clips may break if forced." }] :=
  ⟨(c8_target_lock_unavailable_canned _ none rfl).2.2.1,
   (c8_target_lock_unavailable_canned _ none rfl).2.2.2.1⟩

/-- C10: when the guide search finds a device with a non-empty guide list
but the first guide has no usable guide id, or its detail has no steps,
the orchestrator still marks the session verified and returns a
verified-source result with an empty step list and the guides attached;
the generative node is not invoked. -/
theorem c10_empty_guide_detail_still_verified (c : Collab) (up : Option String)
    (sd : SceneData) (t : String) (dev : Device) (g : Guide) (gs : List Guide)
    (h1 : c.modelAvailable = true)
    (h2 : c.sceneResp = .ok sd)
    (h3 : sd.target_object = some t)
    (h4 : pyStrIn "Unknown" t = false)
    (h5 : c.searchResp = .ok (some dev))
    (h6 : c.guidesResp = .ok (g :: gs))
    (h7 : pyTruthyInt g.guideid = false ∨ c.detailResp = .ok ⟨[]⟩) :
    (process_request c up).is_verified = true ∧
    (process_request c up).resp.source = "iFixit" ∧
    (process_request c up).resp.steps = [] ∧
    (process_request c up).resp.guides_available = some (g :: gs) ∧
    (process_request c up).genInvoked = false := by
  have hsc : (analyze_scene_node c up).2.target_device = t := by
    simp [analyze_scene_node, h1, h2, h3]
  have hifx : (ifixit_check_node c t).2 = IfxUpdate.verified [] (g :: gs) := by
    by_cases hg : pyTruthyInt g.guideid = true
    · rcases h7 with h7 | h7
      · rw [hg] at h7; cases h7
      · simp [ifixit_check_node, h4, h5, h6, hg, h7, mapVerifiedSteps]
    · simp [ifixit_check_node, h4, h5, h6, hg]
  simp only [process_request, hsc, hifx]
  simp [polish_all_steps]

/-- C10 witness: a concrete session whose first guide has no guide id. -/
theorem c10_witness :
    (process_request
      ⟨true, .ok ⟨some "Toaster", none, []⟩, .ok (some ⟨none, none⟩), .ok [⟨none⟩],
       .ok ⟨[]⟩, .error "e", .error "e", none⟩ none).resp.source = "iFixit" ∧
    (process_request
      ⟨true, .ok ⟨some "Toaster", none, []⟩, .ok (some ⟨none, none⟩), .ok [⟨none⟩],
       .ok ⟨[]⟩, .error "e", .error "e", none⟩ none).resp.steps = [] :=
  ⟨(c10_empty_guide_detail_still_verified _ none ⟨some "Toaster", none, []⟩ "Toaster"
      ⟨none, none⟩ ⟨none⟩ [] rfl rfl rfl rfl rfl rfl (Or.inl rfl)).2.1,
   (c10_empty_guide_detail_still_verified _ none ⟨some "Toaster", none, []⟩ "Toaster"
      ⟨none, none⟩ ⟨none⟩ [] rfl rfl rfl rfl rfl rfl (Or.inl rfl)).2.2.1⟩

/-- Claim C2 as stated, at one oracle and hint: verified source and no
generative call exactly when the verified-guide path produced at least
one step. -/
def claimC2At (c : Collab) (up : Option String) : Prop :=
  ((∃ vs gs, (ifixit_check_node c (analyze_scene_node c up).2.target_device).2
      = IfxUpdate.verified vs gs ∧ vs ≠ []) →
    ((process_request c up).resp.source = "iFixit" ∧
     (process_request c up).genInvoked = false)) ∧
  (¬(∃ vs gs, (ifixit_check_node c (analyze_scene_node c up).2.target_device).2
      = IfxUpdate.verified vs gs ∧ vs ≠ []) →
    ((process_request c up).genInvoked = true ∧
     (process_request c up).resp.source = "AI_Reasoning"))

/-- Oracle refuting C2: the device is found with one guide, but that guide
has no guide id, so zero verified steps are produced — yet the code keeps
the verified path. -/
def c2ex : Collab :=
  ⟨true, .ok ⟨some "Toaster", some "central", ["Toaster"]⟩,
   .ok (some ⟨some "Toaster", some "Toaster"⟩), .ok [⟨none⟩], .ok ⟨[]⟩,
   .error "offline", .error "offline", none⟩

/-- C2 counterexample: with zero verified steps the claim demands the
generative path, but the code returns a verified-source result without
invoking the generative node. -/
theorem c2_counterexample : ¬ claimC2At c2ex none := by
  intro hc
  have hifx : (ifixit_check_node c2ex (analyze_scene_node c2ex none).2.target_device).2
      = IfxUpdate.verified [] [⟨none⟩] := by decide
  have hno : ¬(∃ vs gs,
      (ifixit_check_node c2ex (analyze_scene_node c2ex none).2.target_device).2
        = IfxUpdate.verified vs gs ∧ vs ≠ []) := by
    rintro ⟨vs, gs, heq, hne⟩
    rw [hifx] at heq
    injection heq with hv hg
    exact hne hv.symm
  exact absurd (hc.2 hno).1 (by decide)

/-- C2 amended: the source tag is the verified tag exactly when the guide
lookup succeeded with a device and a non-empty guide list (regardless of
how many steps were mapped — possibly zero), and the generative node is
invoked exactly when the source tag is the generated tag. -/
theorem c2_amended_source_iff_lookup_verified (c : Collab) (up : Option String) :
    ((process_request c up).resp.source = "iFixit" ↔
      ∃ vs gs, (ifixit_check_node c (analyze_scene_node c up).2.target_device).2
        = IfxUpdate.verified vs gs) ∧
    ((process_request c up).genInvoked = true ↔
      (process_request c up).resp.source = "AI_Reasoning") := by
  simp only [process_request]
  cases hI : (ifixit_check_node c (analyze_scene_node c up).2.target_device).2 with
  | verified vs gs => simp
  | notVerified => simp

/-- Contiguity of step numbers: the `step` fields read 1..N in list order. -/
def stepNumbersContiguous (steps : List StepDict) : Prop :=
  steps.map StepDict.step
    = (List.range steps.length).map fun i => some (Int.ofNat i + 1)

/-- Claim C3 as stated, at one oracle and hint. -/
def claimC3At (c : Collab) (up : Option String) : Prop :=
  (process_request c up).resp.steps ≠ [] ∧
  stepNumbersContiguous (process_request c up).resp.steps

/-- Oracle refuting C3: a verified session whose only guide has no guide
id yields an empty step list. -/
def c3ex : Collab :=
  ⟨true, .ok ⟨some "Blender", some "central", ["Blender"]⟩,
   .ok (some ⟨some "Blender", some "Blender"⟩), .ok [⟨none⟩], .ok ⟨[]⟩,
   .error "offline", .error "offline", none⟩

/-- C3 counterexample: the returned step list is empty for this session. -/
theorem c3_counterexample : ¬ claimC3At c3ex none := by
  intro hc
  exact hc.1 (by decide)

/-- C3 amended: step lists constructed by the code itself are 1..N
numbered — any session with the model unavailable returns the non-empty
canned list numbered 1..2, and the verified-guide mapping numbers its
output contiguously from 1 — but a verified session may return an empty
list, and model-authored lists are passed through without renumbering. -/
theorem c3_amended_numbering (c : Collab) (up : Option String)
    (raws : List RawStep) (h : c.modelAvailable = false) :
    ((process_request c up).resp.steps ≠ [] ∧
     stepNumbersContiguous (process_request c up).resp.steps) ∧
    stepNumbersContiguous (mapVerifiedSteps raws) := by
  constructor
  · have hscene : analyze_scene_node c up =
        (["AI offline. Defaulting to Unknown Device."],
         { target_device := "Unknown Device (AI Offline)", detected_objects := [] }) := by
      simp [analyze_scene_node, h]
    have hifx : ifixit_check_node c "Unknown Device (AI Offline)" = ([], .notVerified) := rfl
    have hgen : generative_reasoning_node c "Unknown Device (AI Offline)"
        = ([], mock_generative_steps) := by
      simp [generative_reasoning_node, h]
    have hpolish : polish_all_steps c mock_generative_steps.repair_steps
        = mock_generative_steps.repair_steps := by
      simp only [polish_all_steps, h]
      simp
    have hsteps : (process_request c up).resp.steps = mock_generative_steps.repair_steps := by
      simp only [process_request, hscene, hifx, hgen]
      simp [hpolish]
    rw [hsteps]
    constructor
    · simp [mock_generative_steps]
    · simp only [mock_generative_steps, stepNumbersContiguous]
      decide
  · simp only [stepNumbersContiguous, mapVerifiedSteps, List.map_map]
    have hlen : (raws.enum.map fun p => mapRawStep p.1 p.2).length = raws.length := by
      simp [List.enum_length]
    rw [hlen, ← List.enum_map_fst raws, List.map_map]
    rfl

/-- C3 witness: the amended statement evaluated at a concrete offline
oracle and a one-step raw guide. -/
theorem c3_witness :
    ((process_request
        ⟨false, .error "e", .error "e", .error "e", .error "e", .error "e", .error "e", none⟩
        none).resp.steps ≠ [] ∧
     stepNumbersContiguous (process_request
        ⟨false, .error "e", .error "e", .error "e", .error "e", .error "e", .error "e", none⟩
        none).resp.steps) ∧
    stepNumbersContiguous (mapVerifiedSteps [⟨[], some "Open the housing"⟩]) :=
  c3_amended_numbering _ none [⟨[], some "Open the housing"⟩] rfl

/-- Claim C9 as stated: whenever all of a raw step's line texts are empty
(however many lines there are) and the title is non-empty, the mapped
instruction equals the title. -/
def claimC9 : Prop :=
  ∀ (idx : Nat) (s : RawStep) (t : String),
    s.title = some t → t ≠ "" →
    (∀ l ∈ s.lines, l.text_raw.getD "" = "") →
    (mapRawStep idx s).instruction = some t

/-- C9 counterexample: with two empty-text lines the space-join is a
single space, which is truthy in Python, so the title fallback does not
fire and the instruction is the whitespace string. -/
theorem c9_counterexample : ¬ claimC9 := by
  intro h
  have := h 0 ⟨[⟨some ""⟩, ⟨some ""⟩], some "Reattach the display cable"⟩
      "Reattach the display cable" rfl (by decide) (by decide)
  exact absurd this (by decide)

/-- C9 amended: the title fallback applies exactly when the space-join of
the line texts is empty, i.e. when the step has zero lines or a single
line with empty text; with two or more empty lines the join is non-empty
whitespace and becomes the instruction instead. -/
theorem c9_amended_title_fallback (idx : Nat) (s : RawStep) (t : String)
    (h1 : s.title = some t)
    (h2 : ∀ l ∈ s.lines, l.text_raw.getD "" = "")
    (h3 : s.lines.length ≤ 1) :
    (mapRawStep idx s).instruction = some t := by
  obtain ⟨lines, title⟩ := s
  simp only at h1 h2 h3
  subst h1
  cases lines with
  | nil =>
      have hi : String.intercalate " " ([] : List String) = "" := rfl
      simp [mapRawStep, pyOrS, hi]
  | cons l rest =>
      cases rest with
      | nil =>
          have hl := h2 l (by simp)
          have hi : String.intercalate " " [""] = "" := rfl
          simp [mapRawStep, hl, hi, pyOrS]
      | cons l2 rest2 => simp at h3
/-- C9 witness: a raw step with no lines and a non-empty title maps to
that title. -/
theorem c9_witness :
    (mapRawStep 0 ⟨[], some "Open the case"⟩).instruction = some "Open the case" :=
  c9_amended_title_fallback 0 ⟨[], some "Open the case"⟩ "Open the case" rfl
    (fun l hl => nomatch hl) (by decide)

/-- Claim C4 as stated, at one oracle and hint: the streaming event list
is some log events followed by exactly the blocking result (identical in
every field, including `reasoning_log`), with at least one log event. -/
def claimC4At (c : Collab) (up : Option String) : Prop :=
  ∃ msgs, process_request_streaming c up
      = msgs.map StreamEvent.log ++ [StreamEvent.result (process_request c up).resp] ∧
    msgs ≠ []

/-- Oracle refuting C4: the offline session, whose streaming run appends
extra reasoning-log lines of its own. -/
def c4ex : Collab :=
  ⟨false, .error "x", .error "x", .error "x", .error "x", .error "x", .error "x", none⟩

/-- C4 counterexample: the terminal streaming result differs from the
blocking result in `reasoning_log` (12 lines vs 6), so the two are not
identical. -/
theorem c4_counterexample : ¬ claimC4At c4ex none := by
  rintro ⟨msgs, heq, -⟩
  have h1 : (process_request_streaming c4ex none).getLast?
      = some (StreamEvent.result (process_request c4ex none).resp) := by
    rw [heq]; exact List.getLast?_concat _
  have h2 := congrArg (fun o => match o with
    | some (StreamEvent.result r) => r.reasoning_log.length
    | _ => 0) h1
  exact absurd h2 (by decide)

/-- C4 amended: given the same oracle, the streaming terminal result
agrees with the blocking result on every field except `reasoning_log`
(the streaming run records additional log lines), and the stream is a
non-empty run of log events followed by exactly one terminal result
event. -/
theorem c4_amended_stream_agrees_except_log (c : Collab) (up : Option String) :
    ∃ msgs r, process_request_streaming c up
        = msgs.map StreamEvent.log ++ [StreamEvent.result r] ∧
      msgs ≠ [] ∧
      r.source = (process_request c up).resp.source ∧
      r.device = (process_request c up).resp.device ∧
      r.steps = (process_request c up).resp.steps ∧
      r.safety = (process_request c up).resp.safety ∧
      r.guides_available = (process_request c up).resp.guides_available ∧
      r.model_url = (process_request c up).resp.model_url := by
  simp only [process_request, process_request_streaming]
  cases hI : (ifixit_check_node c (analyze_scene_node c up).2.target_device).2 with
  | verified vs gs =>
      refine ⟨_, _, rfl, ?_, rfl, rfl, rfl, rfl, rfl, rfl⟩
      simp
  | notVerified =>
      refine ⟨_, _, rfl, ?_, rfl, rfl, rfl, rfl, rfl, rfl⟩
      simp
